import Mathlib

/-!
Shallow embedding of the Order Computation & Submission Engine of
`src/app.py` (a Dash product-planning app), together with proofs of the
specified properties.

Modelling conventions:
* Sheet rows become structures (`ProductRow`, `RetailerRow`); numeric cell
  values are `ℚ` (an absent / `None` price cell is `Option.none`).
* A Dash dropdown value is `Option String`; Python truthiness of such a
  value is `pyFalsy` (both `None` and `""` are falsy).
* A quantity input value is `Option ℚ` (`none` models Python `None`).
* `uuid.uuid4()` and `datetime.datetime.now().isoformat()` are modelled as
  streams `ℕ → String` indexed by the call count inside one submission:
  the loop body of `submit_data` performs one draw of each per iteration.
* The Google-Sheets worksheet is an append-only list of records; whether
  the `append_row` call for the j-th record raises is the oracle
  `sinkOk j`.  An exception anywhere inside the `try` block of
  `submit_data` yields the error status and leaves the sink untouched
  beyond the rows already appended.
-/

namespace Planning

/-- One row of the `Products` sheet: `Product name`, `Category`, `Price`.
An absent or `None` price cell is `none`. -/
structure ProductRow where
  productName : String
  category : String
  price : Option ℚ
deriving DecidableEq, Repr

/-- One row of the `Retailers` sheet. -/
structure RetailerRow where
  retailerName : String
  salesperson : String
  team : String
  email : String
deriving DecidableEq, Repr

/-- Python truthiness of an optional string: `None` and `""` are falsy. -/
def pyFalsy : Option String → Bool
  | none => true
  | some s => s == ""

/-- The `children` of the `salesperson-info` div: either a plain message
string or the three rendered `html.P` lines. -/
inductive Children where
  | msg : String → Children
  | infoLines : String → String → String → Children
deriving DecidableEq, Repr

/-- `update_salesperson_info` (src/app.py lines 94-106): renders either an
error message or three lines built from the retailer row found by name. -/
def update_salesperson_info (retailers_data : List RetailerRow)
    (selected_retailer : Option String) : Children :=
  if pyFalsy selected_retailer then .msg "Please select a retailer."
  else
    let r := selected_retailer.getD ""
    match retailers_data.find? (fun ri => ri.retailerName == r) with
    | none => .msg "Retailer not found."
    | some ri =>
        .infoLines ("👤 Salesperson: " ++ ri.salesperson)
          ("📢 Team: " ++ ri.team)
          ("📧 Email: " ++ ri.email)

/-- The `children` of the `product-inputs` div: either a message or one
input row per product, keyed by product name (in catalog order). -/
inductive ProductInputsView where
  | msg : String → ProductInputsView
  | rows : List String → ProductInputsView
deriving DecidableEq, Repr

/-- `update_product_inputs` (src/app.py lines 113-139): one quantity input
per product of the selected category, in catalog order. -/
def update_product_inputs (products_data : List ProductRow)
    (selected_category : Option String) : ProductInputsView :=
  if pyFalsy selected_category then
    .msg "⚠️ Please select a category to enter product quantities."
  else
    let c := selected_category.getD ""
    let filtered_products := products_data.filter (fun p => p.category == c)
    if filtered_products.isEmpty then
      .msg ("⚠️ No products found under the '" ++ c ++ "' category.")
    else
      .rows (filtered_products.map (fun p => p.productName))

/-- Price lookup of `update_total_amount` (src/app.py lines 161-162):
first product whose name matches; a missing product or missing price is 0. -/
def priceLookup (products_data : List ProductRow) (product_id : String) : ℚ :=
  match products_data.find? (fun p => p.productName == product_id) with
  | none => 0
  | some p => p.price.getD 0

/-- Loop body of `update_total_amount` (src/app.py lines 156-166):
`None` quantity is coerced to 0, amount is price times quantity. -/
def lineAmount (products_data : List ProductRow) (quantity : Option ℚ)
    (product_id : String) : ℚ :=
  priceLookup products_data product_id * quantity.getD 0

/-- `update_total_amount` (src/app.py lines 149-168): per-line amounts and
the category total, recomputed from scratch from the current quantities.
The rendered `₹…` strings carry exactly these numeric values. -/
def update_total_amount (products_data : List ProductRow)
    (quantities : List (Option ℚ)) (ids : List String) : List ℚ × ℚ :=
  if quantities.isEmpty then
    (List.replicate ids.length 0, 0)
  else
    ((quantities.zip ids).map
        (fun qi => lineAmount products_data qi.1 qi.2),
      ((quantities.zip ids).map
        (fun qi => lineAmount products_data qi.1 qi.2)).sum)

/-- One quantity edit: the Dash input at position `edit.1` now holds value
`edit.2`. -/
def applyEdit (quantities : List (Option ℚ)) (edit : ℕ × Option ℚ) :
    List (Option ℚ) :=
  quantities.set edit.1 edit.2

/-- A sequence of quantity edits applied in order. -/
def applyEdits (quantities : List (Option ℚ))
    (edits : List (ℕ × Option ℚ)) : List (Option ℚ) :=
  edits.foldl applyEdit quantities

/-- Modelled from the spec: the quantity entry control rendered at
src/app.py line 130 (`dcc.Input(type="number", min=0)`) is external UI
whose implementation is not part of this repository; per the spec it
delivers a numeric value only for valid non-negative numeric entry and
`None` for negative, non-numeric, absent or blank input. -/
inductive RawQuantityInput where
  | blank : RawQuantityInput
  | nonNumeric : String → RawQuantityInput
  | numeric : ℚ → RawQuantityInput
deriving DecidableEq, Repr

/-- Modelled from the spec: the value the number input (min 0) reports to
the callback for a raw user entry. -/
def inputValue : RawQuantityInput → Option ℚ
  | .blank => none
  | .nonNumeric _ => none
  | .numeric q => if q < 0 then none else some q

/-- One row appended to the `Submissions` worksheet
(src/app.py lines 209-222). -/
structure SubmissionRecord where
  uniqueId : String
  retailer : String
  salesperson : String
  team : String
  email : String
  category : String
  product : String
  quantity : ℚ
  amount : ℚ
  latitude : String
  longitude : String
  timestamp : String
deriving DecidableEq, Repr

/-- Character-level model of Python `str.split(": ")`: cut at each
leftmost non-overlapping occurrence of `": "`. -/
def splitColonSpaceAux : List Char → List Char → List (List Char)
  | [], acc => [acc.reverse]
  | ':' :: ' ' :: cs, acc => acc.reverse :: splitColonSpaceAux cs []
  | c :: cs, acc => splitColonSpaceAux cs (c :: acc)

/-- Python `s.split(": ")`. -/
def pySplitColonSpace (s : String) : List String :=
  (splitColonSpaceAux s.data []).map (fun cs => String.mk cs)

/-- Character-level model of Python `str.split(",")`. -/
def splitCommaAux : List Char → List Char → List (List Char)
  | [], acc => [acc.reverse]
  | c :: cs, acc =>
      if c = ',' then acc.reverse :: splitCommaAux cs []
      else splitCommaAux cs (c :: acc)

/-- Python `s.split(",")`. -/
def pySplitComma (s : String) : List String :=
  (splitCommaAux s.data []).map (fun cs => String.mk cs)

/-- The field extraction of src/app.py lines 187-189:
`salesperson_info[i]["props"]["children"].split(": ")[1]` for the three
lines; indexing a plain message string raises (hence `none`), as does a
missing `": "` separator. -/
def extractSalespersonFields : Children → Option (String × String × String)
  | .msg _ => none
  | .infoLines a b c => do
      let sp ← (pySplitColonSpace a)[1]?
      let tm ← (pySplitColonSpace b)[1]?
      let em ← (pySplitColonSpace c)[1]?
      pure (sp, tm, em)

/-- Geolocation handling of src/app.py lines 195-198: a falsy value gives
`("0", "0")`; otherwise `geolocation.split(",")` must unpack into exactly
two parts (anything else raises, hence `none`). -/
def parseGeolocation (geolocation : Option String) :
    Option (String × String) :=
  if pyFalsy geolocation then some ("0", "0")
  else
    match pySplitComma (geolocation.getD "") with
    | [la, lo] => some (la, lo)
    | _ => none

/-- Loop body of `submit_data` (src/app.py lines 202-222) at loop index
`idx`: quantity is `input_values[idx]` when present and not `None`, else 0;
price defaults to 0; one `uuid4()` draw and one `now()` draw per record. -/
def submissionRecordAt (selected_retailer selected_category salesperson
    team email : String) (input_values : List (Option ℚ))
    (latitude longitude : String) (uuidGen clock : ℕ → String)
    (idx : ℕ) (product : ProductRow) : SubmissionRecord :=
  let quantity : ℚ := ((input_values[idx]?).join).getD 0
  let price : ℚ := product.price.getD 0
  { uniqueId := uuidGen idx
    retailer := selected_retailer
    salesperson := salesperson
    team := team
    email := email
    category := selected_category
    product := product.productName
    quantity := quantity
    amount := price * quantity
    latitude := latitude
    longitude := longitude
    timestamp := clock idx }

/-- The record-building loop of `submit_data` (src/app.py lines 191-222):
one record per product of the selected category, by `enumerate`. -/
def buildSubmissionData (products_data : List ProductRow)
    (selected_retailer selected_category salesperson team email : String)
    (input_values : List (Option ℚ)) (latitude longitude : String)
    (uuidGen clock : ℕ → String) : List SubmissionRecord :=
  ((products_data.filter
      (fun p => p.category == selected_category)).enum).map
    (fun ip => submissionRecordAt selected_retailer selected_category
      salesperson team email input_values latitude longitude
      uuidGen clock ip.1 ip.2)

/-- The append loop of src/app.py lines 224-226: rows are appended one by
one; the first raising `append_row` call aborts the loop (the exception
propagates to the handler), leaving earlier rows in place. -/
def appendRows (sinkOk : ℕ → Bool) :
    List SubmissionRecord → List SubmissionRecord → ℕ →
    List SubmissionRecord × Bool
  | sink, [], _ => (sink, true)
  | sink, r :: rs, j =>
      if sinkOk j then appendRows sinkOk (sink ++ [r]) rs (j + 1)
      else (sink, false)

/-- The observable outcome of `submit_data`: the returned status message,
the `confirm-dialog` flag, and the final contents of the `Submissions`
worksheet. -/
structure SubmitOutcome where
  status : String
  displayed : Bool
  sink : List SubmissionRecord
deriving DecidableEq, Repr

/-- `submit_data` (src/app.py lines 182-232). -/
def submit_data (products_data : List ProductRow) (n_clicks : ℕ)
    (selected_retailer selected_category : Option String)
    (salesperson_info : Children) (input_values : List (Option ℚ))
    (geolocation : Option String) (uuidGen clock : ℕ → String)
    (sinkOk : ℕ → Bool) (sink : List SubmissionRecord) : SubmitOutcome :=
  if n_clicks == 0 || pyFalsy selected_retailer ||
      pyFalsy selected_category then
    { status := "⚠️ Please complete all fields before submitting."
      displayed := false
      sink := sink }
  else
    match extractSalespersonFields salesperson_info,
        parseGeolocation geolocation with
    | some (salesperson, team, email), some (latitude, longitude) =>
        let submission_data := buildSubmissionData products_data
          (selected_retailer.getD "") (selected_category.getD "")
          salesperson team email input_values latitude longitude
          uuidGen clock
        let result := appendRows sinkOk sink submission_data 0
        if result.2 then
          { status := "✅ Data submitted successfully for " ++
              selected_category.getD "" ++ " in " ++
              selected_retailer.getD "" ++ "."
            displayed := true
            sink := result.1 }
        else
          { status := "❌ An error occurred while submitting. Please try again."
            displayed := false
            sink := result.1 }
    | _, _ =>
        { status := "❌ An error occurred while submitting. Please try again."
          displayed := false
          sink := sink }

/-! ### Helper lemmas -/

lemma map_zip_eq_zipWith (f : Option ℚ → String → ℚ) :
    ∀ (qs : List (Option ℚ)) (ids : List String),
      (qs.zip ids).map (fun qi => f qi.1 qi.2) = List.zipWith f qs ids
  | [], _ => rfl
  | _ :: _, [] => rfl
  | q :: qs, pid :: ids => by
      simp [List.zip_cons_cons, map_zip_eq_zipWith f qs ids]

lemma applyEdits_perm (qs0 : List (Option ℚ))
    (edits edits' : List (ℕ × Option ℚ)) (hperm : edits.Perm edits')
    (hnd : (edits.map Prod.fst).Nodup) :
    applyEdits qs0 edits = applyEdits qs0 edits' := by
  unfold applyEdits
  refine hperm.foldl_eq' ?_ qs0
  intro x hx y hy z
  by_cases hxy : x = y
  · subst hxy; rfl
  · have hfst : x.1 ≠ y.1 := fun h =>
      hxy (List.inj_on_of_nodup_map hnd hx hy h)
    exact List.set_comm x.2 y.2 z hfst

lemma length_applyEdits (qs0 : List (Option ℚ))
    (edits : List (ℕ × Option ℚ)) :
    (applyEdits qs0 edits).length = qs0.length := by
  induction edits generalizing qs0 with
  | nil => rfl
  | cons e edits ih =>
      rw [applyEdits, List.foldl_cons]
      rw [show List.foldl applyEdit (applyEdit qs0 e) edits
            = applyEdits (applyEdit qs0 e) edits from rfl]
      rw [ih, applyEdit, List.length_set]

lemma map_lineAmount_set (products_data : List ProductRow) :
    ∀ (qs : List (Option ℚ)) (i : ℕ) (ids : List String)
      (a b : Option ℚ), a.getD 0 = b.getD 0 →
      ((qs.set i a).zip ids).map
          (fun qi => lineAmount products_data qi.1 qi.2)
        = ((qs.set i b).zip ids).map
            (fun qi => lineAmount products_data qi.1 qi.2)
  | [], _, _, _, _, _ => by simp
  | _ :: _, 0, [], _, _, _ => by simp
  | q :: qs, 0, pid :: ids, a, b, h => by
      simp [List.zip_cons_cons, lineAmount, h]
  | q :: qs, i + 1, [], a, b, h => by simp
  | q :: qs, i + 1, pid :: ids, a, b, h => by
      simp only [List.set_cons_succ, List.zip_cons_cons, List.map_cons]
      rw [map_lineAmount_set products_data qs i ids a b h]

lemma find?_productName_eq :
    ∀ (l : List ProductRow) (p : ProductRow), p ∈ l →
      ((l.map (fun x => x.productName)).Nodup) →
      l.find? (fun x => x.productName == p.productName) = some p
  | [], p, hmem, _ => absurd hmem (List.not_mem_nil p)
  | q :: l, p, hmem, hnd => by
      rw [List.map_cons, List.nodup_cons] at hnd
      rcases List.mem_cons.mp hmem with rfl | hmem'
      · exact List.find?_cons_of_pos l (by simp)
      · have hne : ¬ (q.productName == p.productName) = true := by
          simp only [beq_iff_eq]
          intro h
          exact hnd.1 (h ▸ List.mem_map_of_mem (fun x => x.productName) hmem')
        rw [List.find?_cons_of_neg l hne]
        exact find?_productName_eq l p hmem' hnd.2

lemma priceLookup_of_mem (l : List ProductRow) (p : ProductRow)
    (hmem : p ∈ l) (hnd : (l.map (fun x => x.productName)).Nodup) :
    priceLookup l p.productName = p.price.getD 0 := by
  unfold priceLookup
  rw [find?_productName_eq l p hmem hnd]

lemma buildSubmissionData_getElem? (pd : List ProductRow)
    (r c sp tm em : String) (iv : List (Option ℚ)) (la lo : String)
    (gen clk : ℕ → String) (i : ℕ) :
    (buildSubmissionData pd r c sp tm em iv la lo gen clk)[i]?
      = ((pd.filter (fun p => p.category == c))[i]?).map
          (fun p => submissionRecordAt r c sp tm em iv la lo gen clk i p) := by
  unfold buildSubmissionData
  rw [List.getElem?_map, List.enum, List.getElem?_enumFrom,
    Option.map_map]
  simp only [Nat.zero_add]
  rfl

lemma buildSubmissionData_length (pd : List ProductRow)
    (r c sp tm em : String) (iv : List (Option ℚ)) (la lo : String)
    (gen clk : ℕ → String) :
    (buildSubmissionData pd r c sp tm em iv la lo gen clk).length
      = (pd.filter (fun p => p.category == c)).length := by
  unfold buildSubmissionData
  rw [List.length_map]
  exact List.enumFrom_length

lemma mem_buildSubmissionData (pd : List ProductRow)
    (r c sp tm em : String) (iv : List (Option ℚ)) (la lo : String)
    (gen clk : ℕ → String) (rec : SubmissionRecord)
    (hmem : rec ∈ buildSubmissionData pd r c sp tm em iv la lo gen clk) :
    ∃ i p, (pd.filter (fun p => p.category == c))[i]? = some p
      ∧ rec = submissionRecordAt r c sp tm em iv la lo gen clk i p := by
  rcases List.mem_iff_getElem?.mp hmem with ⟨i, hi⟩
  rw [buildSubmissionData_getElem?] at hi
  rcases Option.map_eq_some'.mp hi with ⟨p, hp, hrec⟩
  exact ⟨i, p, hp, hrec.symm⟩

lemma buildSubmissionData_map_uniqueId (pd : List ProductRow)
    (r c sp tm em : String) (iv : List (Option ℚ)) (la lo : String)
    (gen clk : ℕ → String) :
    (buildSubmissionData pd r c sp tm em iv la lo gen clk).map
        (fun rec => rec.uniqueId)
      = (List.range'
          0 ((pd.filter (fun p => p.category == c)).length)).map gen := by
  unfold buildSubmissionData
  rw [List.map_map]
  have h1 : ((pd.filter (fun p => p.category == c)).enum).map
        ((fun rec => rec.uniqueId) ∘
          (fun ip => submissionRecordAt r c sp tm em iv la lo gen clk
            ip.1 ip.2))
      = ((pd.filter (fun p => p.category == c)).enum).map
          (fun ip => gen ip.1) := by
    apply List.map_congr_left
    intro a _
    rfl
  rw [h1, show (fun ip : ℕ × ProductRow => gen ip.1)
        = gen ∘ Prod.fst from rfl]
  rw [← List.map_map, List.enum, List.enumFrom_map_fst]

lemma appendRows_all_ok (sinkOk : ℕ → Bool)
    (h : ∀ j, sinkOk j = true) :
    ∀ (rs sink : List SubmissionRecord) (t : ℕ),
      appendRows sinkOk sink rs t = (sink ++ rs, true)
  | [], sink, t => by simp [appendRows]
  | r :: rs, sink, t => by
      rw [appendRows, h t, if_pos rfl,
        appendRows_all_ok sinkOk h rs (sink ++ [r]) (t + 1)]
      simp

lemma appendRows_first_fail (sinkOk : ℕ → Bool) :
    ∀ (rs sink : List SubmissionRecord) (t j : ℕ), j < rs.length →
      (∀ i, i < j → sinkOk (t + i) = true) → sinkOk (t + j) = false →
      appendRows sinkOk sink rs t = (sink ++ rs.take j, false)
  | [], _, _, j, hj, _, _ => absurd hj (Nat.not_lt_zero j)
  | r :: rs, sink, t, 0, _, _, hfail => by
      rw [appendRows, show t + 0 = t from rfl] at *
      rw [hfail]
      simp
  | r :: rs, sink, t, j + 1, hj, hpre, hfail => by
      have h0 : sinkOk t = true := by
        have := hpre 0 (Nat.succ_pos j)
        rwa [Nat.add_zero] at this
      rw [appendRows, h0, if_pos rfl]
      have hpre' : ∀ i, i < j → sinkOk (t + 1 + i) = true := by
        intro i hi
        have := hpre (i + 1) (Nat.succ_lt_succ hi)
        rwa [show t + (i + 1) = t + 1 + i by omega] at this
      have hfail' : sinkOk (t + 1 + j) = false := by
        rwa [show t + 1 + j = t + (j + 1) by omega]
      rw [appendRows_first_fail sinkOk rs (sink ++ [r]) (t + 1) j
        (Nat.lt_of_succ_lt_succ hj) hpre' hfail']
      simp

lemma submit_data_precond_false (n_clicks : ℕ)
    (selected_retailer selected_category : Option String)
    (hn : n_clicks ≠ 0) (hr : pyFalsy selected_retailer = false)
    (hc : pyFalsy selected_category = false) :
    (n_clicks == 0 || pyFalsy selected_retailer ||
      pyFalsy selected_category) = false := by
  simp [hr, hc, hn]

lemma submit_data_eq_good (pd : List ProductRow) (n_clicks : ℕ)
    (r c : String) (si : Children) (iv : List (Option ℚ))
    (geo : Option String) (gen clk : ℕ → String) (sinkOk : ℕ → Bool)
    (sink : List SubmissionRecord) (sp tm em la lo : String)
    (hn : n_clicks ≠ 0) (hr : r ≠ "") (hc : c ≠ "")
    (hsp : extractSalespersonFields si = some (sp, tm, em))
    (hgeo : parseGeolocation geo = some (la, lo)) :
    submit_data pd n_clicks (some r) (some c) si iv geo gen clk sinkOk sink
      = if (appendRows sinkOk sink
            (buildSubmissionData pd r c sp tm em iv la lo gen clk) 0).2 then
          { status := "✅ Data submitted successfully for " ++ c ++
              " in " ++ r ++ "."
            displayed := true
            sink := (appendRows sinkOk sink
              (buildSubmissionData pd r c sp tm em iv la lo gen clk) 0).1 }
        else
          { status := "❌ An error occurred while submitting. Please try again."
            displayed := false
            sink := (appendRows sinkOk sink
              (buildSubmissionData pd r c sp tm em iv la lo gen clk) 0).1 } := by
  unfold submit_data
  rw [submit_data_precond_false n_clicks (some r) (some c) hn
    (by simp [pyFalsy, hr]) (by simp [pyFalsy, hc])]
  simp only [Bool.false_eq_true, if_false, hsp, hgeo]
  rfl

lemma submit_data_eq_warn (pd : List ProductRow) (n_clicks : ℕ)
    (selected_retailer selected_category : Option String) (si : Children)
    (iv : List (Option ℚ)) (geo : Option String) (gen clk : ℕ → String)
    (sinkOk : ℕ → Bool) (sink : List SubmissionRecord)
    (h : (n_clicks == 0 || pyFalsy selected_retailer ||
      pyFalsy selected_category) = true) :
    submit_data pd n_clicks selected_retailer selected_category si iv geo
        gen clk sinkOk sink
      = { status := "⚠️ Please complete all fields before submitting."
          displayed := false
          sink := sink } := by
  unfold submit_data
  rw [h]
  rfl

lemma submit_data_eq_err_of_extract_none (pd : List ProductRow)
    (n_clicks : ℕ) (selected_retailer selected_category : Option String)
    (si : Children) (iv : List (Option ℚ)) (geo : Option String)
    (gen clk : ℕ → String) (sinkOk : ℕ → Bool)
    (sink : List SubmissionRecord)
    (hnot : (n_clicks == 0 || pyFalsy selected_retailer ||
      pyFalsy selected_category) = false)
    (hsp : extractSalespersonFields si = none) :
    submit_data pd n_clicks selected_retailer selected_category si iv geo
        gen clk sinkOk sink
      = { status := "❌ An error occurred while submitting. Please try again."
          displayed := false
          sink := sink } := by
  unfold submit_data
  rw [hnot]
  simp only [Bool.false_eq_true, if_false, hsp]

lemma extract_unresolved_retailer_none (retailers_data : List RetailerRow)
    (r : String)
    (hfind : retailers_data.find? (fun ri => ri.retailerName == r) = none) :
    extractSalespersonFields
      (update_salesperson_info retailers_data (some r)) = none := by
  unfold update_salesperson_info
  by_cases h : pyFalsy (some r) = true
  · rw [if_pos h]
    rfl
  · rw [if_neg h]
    simp only [Option.getD_some, hfind]
    rfl

/-! ### Claims -/

/-- C1: for every draft, `update_total_amount` returns per-line amounts
with Amount_i = Price_i × Quantity_i and a category total equal to the sum
of the amounts in line order; for any two edit sequences that are
permutations of each other (touching pairwise distinct lines) the computed
result is identical, so the total is independent of the order in which the
quantities were edited. -/
theorem update_total_amount_per_line_total_and_edit_order
    (products_data : List ProductRow) (ids : List String)
    (qs0 : List (Option ℚ)) (edits edits' : List (ℕ × Option ℚ))
    (hperm : edits.Perm edits')
    (hnd : (edits.map Prod.fst).Nodup)
    (hlen : qs0.length = ids.length) :
    ((update_total_amount products_data (applyEdits qs0 edits) ids).1
        = List.zipWith
            (fun q pid => priceLookup products_data pid * q.getD 0)
            (applyEdits qs0 edits) ids)
    ∧ ((update_total_amount products_data (applyEdits qs0 edits) ids).2
        = (update_total_amount products_data
            (applyEdits qs0 edits) ids).1.sum)
    ∧ update_total_amount products_data (applyEdits qs0 edits') ids
        = update_total_amount products_data (applyEdits qs0 edits) ids := by
  have horder : applyEdits qs0 edits' = applyEdits qs0 edits :=
    (applyEdits_perm qs0 edits edits' hperm hnd).symm
  have hlen' : (applyEdits qs0 edits).length = ids.length := by
    rw [length_applyEdits]; exact hlen
  refine ⟨?_, ?_, by rw [horder]⟩
  · unfold update_total_amount
    by_cases h : (applyEdits qs0 edits).isEmpty = true
    · have h0 : applyEdits qs0 edits = [] := List.isEmpty_iff.mp h
      have hids : ids = [] := by
        rw [h0] at hlen'
        exact (List.length_eq_zero.mp hlen'.symm)
      rw [if_pos h, h0, hids]
      simp
    · rw [if_neg h]
      exact map_zip_eq_zipWith _ _ _
  · unfold update_total_amount
    by_cases h : (applyEdits qs0 edits).isEmpty = true
    · rw [if_pos h]
      simp
    · rw [if_neg h]

/-- Witness for C1 at the spec's own example: two lines
(Chips at 20, Cola at 15), edits applied in either order give the same
recompute result. -/
theorem update_total_amount_per_line_total_and_edit_order_witness :
    update_total_amount
        [⟨"Chips", "Snacks", some 20⟩, ⟨"Cola", "Snacks", some 15⟩]
        (applyEdits [none, none] [(1, some 0), (0, some 3)])
        ["Chips", "Cola"]
      = update_total_amount
          [⟨"Chips", "Snacks", some 20⟩, ⟨"Cola", "Snacks", some 15⟩]
          (applyEdits [none, none] [(0, some 3), (1, some 0)])
          ["Chips", "Cola"] :=
  (update_total_amount_per_line_total_and_edit_order
    [⟨"Chips", "Snacks", some 20⟩, ⟨"Cola", "Snacks", some 15⟩]
    ["Chips", "Cola"] [none, none]
    [(0, some 3), (1, some 0)] [(1, some 0), (0, some 3)]
    (by decide) (by decide) (by decide)).2.2

/-- C6: a negative, non-numeric or blank quantity entry reaches the
callback as `None` and is coerced to 0, so the computed state (per-line
amounts and category total) is identical to entering 0. -/
theorem malformed_quantity_coerced_to_zero
    (products_data : List ProductRow) (ids : List String)
    (qs : List (Option ℚ)) (i : ℕ) (raw : RawQuantityInput)
    (hbad : raw = RawQuantityInput.blank
      ∨ (∃ s, raw = RawQuantityInput.nonNumeric s)
      ∨ (∃ q, q < 0 ∧ raw = RawQuantityInput.numeric q)) :
    update_total_amount products_data (qs.set i (inputValue raw)) ids
      = update_total_amount products_data (qs.set i (some 0)) ids := by
  have hval : (inputValue raw).getD 0 = (some (0:ℚ)).getD 0 := by
    rcases hbad with h | ⟨s, h⟩ | ⟨q, hq, h⟩ <;> subst h
    · rfl
    · rfl
    · simp [inputValue, hq]
  have hempty : (qs.set i (inputValue raw)).isEmpty
      = (qs.set i (some 0)).isEmpty := by
    cases qs with
    | nil => rfl
    | cons q qs => cases i <;> simp
  unfold update_total_amount
  by_cases h : (qs.set i (some 0)).isEmpty = true
  · rw [if_pos (hempty.trans h), if_pos h]
  · rw [if_neg (hempty ▸ h), if_neg h]
    exact congrArg (fun l : List ℚ => (l, l.sum))
      (map_lineAmount_set products_data qs i ids (inputValue raw)
        (some 0) hval)

/-- Witness for C6: entering −1 on the first of two lines computes the
same state as entering 0. -/
theorem malformed_quantity_coerced_to_zero_witness :
    update_total_amount
        [⟨"Chips", "Snacks", some 20⟩, ⟨"Cola", "Snacks", some 15⟩]
        ([some 1, some 1].set 0 (inputValue (RawQuantityInput.numeric (-1))))
        ["Chips", "Cola"]
      = update_total_amount
          [⟨"Chips", "Snacks", some 20⟩, ⟨"Cola", "Snacks", some 15⟩]
          ([some 1, some 1].set 0 (some 0)) ["Chips", "Cola"] :=
  malformed_quantity_coerced_to_zero
    [⟨"Chips", "Snacks", some 20⟩, ⟨"Cola", "Snacks", some 15⟩]
    ["Chips", "Cola"] [some 1, some 1] 0 (RawQuantityInput.numeric (-1))
    (Or.inr (Or.inr ⟨-1, by norm_num, rfl⟩))

/-- C2: when the preconditions of a submit hold (a click, a selected
retailer and category, salesperson info parsed, geolocation parsed, a
healthy sink), exactly one SubmissionRecord is built and appended per
product of the selected category — including zero-quantity lines — and a
record with Quantity 0 has Amount 0. -/
theorem submit_one_record_per_category_product
    (pd : List ProductRow) (n_clicks : ℕ) (r c : String) (si : Children)
    (iv : List (Option ℚ)) (geo : Option String) (gen clk : ℕ → String)
    (sinkOk : ℕ → Bool) (sink : List SubmissionRecord)
    (sp tm em la lo : String)
    (hn : n_clicks ≠ 0) (hr : r ≠ "") (hc : c ≠ "")
    (hsp : extractSalespersonFields si = some (sp, tm, em))
    (hgeo : parseGeolocation geo = some (la, lo))
    (hok : ∀ j, sinkOk j = true) :
    ((submit_data pd n_clicks (some r) (some c) si iv geo gen clk sinkOk
        sink).sink
      = sink ++ buildSubmissionData pd r c sp tm em iv la lo gen clk)
    ∧ (buildSubmissionData pd r c sp tm em iv la lo gen clk).length
        = (pd.filter (fun p => p.category == c)).length
    ∧ (∀ i : ℕ, ((buildSubmissionData pd r c sp tm em iv la lo gen
          clk)[i]?).map (fun rec => rec.product)
        = ((pd.filter (fun p => p.category == c))[i]?).map
            (fun p => p.productName))
    ∧ (∀ rec ∈ buildSubmissionData pd r c sp tm em iv la lo gen clk,
        rec.quantity = 0 → rec.amount = 0) := by
  refine ⟨?_, buildSubmissionData_length pd r c sp tm em iv la lo gen clk,
    ?_, ?_⟩
  · rw [submit_data_eq_good pd n_clicks r c si iv geo gen clk sinkOk sink
      sp tm em la lo hn hr hc hsp hgeo,
      appendRows_all_ok sinkOk hok _ sink 0]
    rfl
  · intro i
    rw [buildSubmissionData_getElem?]
    cases (pd.filter (fun p => p.category == c))[i]? with
    | none => rfl
    | some p => rfl
  · intro rec hmem hq
    rcases mem_buildSubmissionData pd r c sp tm em iv la lo gen clk rec
      hmem with ⟨i, p, hp, hrec⟩
    subst hrec
    simp only [submissionRecordAt] at hq ⊢
    rw [hq, mul_zero]

/-- Witness for C2 at the spec's example (Chips 3, Cola 0). -/
theorem submit_one_record_per_category_product_witness :
    (submit_data
        [⟨"Chips", "Snacks", some 20⟩, ⟨"Cola", "Snacks", some 15⟩] 1
        (some "R1") (some "Snacks")
        (Children.infoLines "👤 Salesperson: Alice" "📢 Team: T1"
          "📧 Email: a@x.com")
        [some 3, some 0] none (fun n => "u" ++ toString n)
        (fun n => "t" ++ toString n) (fun _ => true) []).sink
      = [] ++ buildSubmissionData
          [⟨"Chips", "Snacks", some 20⟩, ⟨"Cola", "Snacks", some 15⟩]
          "R1" "Snacks" "Alice" "T1" "a@x.com" [some 3, some 0] "0" "0"
          (fun n => "u" ++ toString n) (fun n => "t" ++ toString n) :=
  (submit_one_record_per_category_product
    [⟨"Chips", "Snacks", some 20⟩, ⟨"Cola", "Snacks", some 15⟩] 1
    "R1" "Snacks"
    (Children.infoLines "👤 Salesperson: Alice" "📢 Team: T1"
      "📧 Email: a@x.com")
    [some 3, some 0] none (fun n => "u" ++ toString n)
    (fun n => "t" ++ toString n) (fun _ => true) []
    "Alice" "T1" "a@x.com" "0" "0"
    (by decide) (by decide) (by decide) (by decide) rfl
    (fun j => rfl)).1

/-- C3: the Amount a submission writes for line i is exactly the Amount
the live recompute (`update_total_amount`) yields for the same quantities,
and both equal Price × Quantity read from the catalog at commit time. -/
theorem submission_amount_matches_recompute
    (pd : List ProductRow)
    (hnodup : (pd.map (fun p => p.productName)).Nodup)
    (r c sp tm em la lo : String) (iv : List (Option ℚ))
    (gen clk : ℕ → String) (i : ℕ)
    (hlen : iv.length = (pd.filter (fun p => p.category == c)).length)
    (hi : i < (pd.filter (fun p => p.category == c)).length) :
    (((buildSubmissionData pd r c sp tm em iv la lo gen clk)[i]?).map
        (fun rec => rec.amount)
      = ((update_total_amount pd iv
          ((pd.filter (fun p => p.category == c)).map
            (fun p => p.productName))).1)[i]?)
    ∧ (((buildSubmissionData pd r c sp tm em iv la lo gen clk)[i]?).map
        (fun rec => rec.amount)
      = ((pd.filter (fun p => p.category == c))[i]?).map
          (fun p => p.price.getD 0 * ((iv[i]?).join).getD 0)) := by
  have hi2 : i < iv.length := by rw [hlen]; exact hi
  have hp : (pd.filter (fun p => p.category == c))[i]?
      = some ((pd.filter (fun p => p.category == c)).get ⟨i, hi⟩) := by
    rw [List.getElem?_eq_getElem hi]
    rfl
  have hq : iv[i]? = some (iv.get ⟨i, hi2⟩) := by
    rw [List.getElem?_eq_getElem hi2]
    rfl
  have hmemfp : (pd.filter (fun p => p.category == c)).get ⟨i, hi⟩ ∈ pd :=
    List.mem_of_mem_filter (List.get_mem _ _ _)
  have hprice : priceLookup pd
        ((pd.filter (fun p => p.category == c)).get ⟨i, hi⟩).productName
      = ((pd.filter
          (fun p => p.category == c)).get ⟨i, hi⟩).price.getD 0 :=
    priceLookup_of_mem pd _ hmemfp hnodup
  have hbuild : ((buildSubmissionData pd r c sp tm em iv la lo gen
        clk)[i]?).map (fun rec => rec.amount)
      = some (((pd.filter
            (fun p => p.category == c)).get ⟨i, hi⟩).price.getD 0
          * ((iv[i]?).join).getD 0) := by
    rw [buildSubmissionData_getElem?, hp]
    rfl
  refine ⟨?_, by rw [hbuild, hp]; rfl⟩
  rw [hbuild]
  have hivne : ¬ iv.isEmpty = true := by
    intro habs
    rw [List.isEmpty_iff.mp habs] at hlen
    simp only [List.length_nil] at hlen
    omega
  unfold update_total_amount
  rw [if_neg hivne]
  have hname : ((pd.filter (fun p => p.category == c)).map
        (fun p => p.productName))[i]?
      = some (((pd.filter
          (fun p => p.category == c)).get ⟨i, hi⟩).productName) := by
    rw [List.getElem?_map, hp]
    rfl
  have hz : (iv.zip ((pd.filter (fun p => p.category == c)).map
        (fun p => p.productName)))[i]?
      = some (iv.get ⟨i, hi2⟩,
          ((pd.filter
            (fun p => p.category == c)).get ⟨i, hi⟩).productName) :=
    List.getElem?_zip_eq_some.mpr ⟨hq, hname⟩
  rw [List.getElem?_map, hz, hq]
  simp only [Option.map_some', lineAmount]
  rw [hprice]
  rfl

/-- Witness for C3 at the spec's example, line 0 (Chips, quantity 3). -/
theorem submission_amount_matches_recompute_witness :
    ((buildSubmissionData
        [⟨"Chips", "Snacks", some 20⟩, ⟨"Cola", "Snacks", some 15⟩]
        "R1" "Snacks" "Alice" "T1" "a@x.com" [some 3, some 0] "0" "0"
        (fun n => "u" ++ toString n)
        (fun n => "t" ++ toString n))[0]?).map (fun rec => rec.amount)
      = ((update_total_amount
          [⟨"Chips", "Snacks", some 20⟩, ⟨"Cola", "Snacks", some 15⟩]
          [some 3, some 0]
          ((([⟨"Chips", "Snacks", some 20⟩,
            ⟨"Cola", "Snacks", some 15⟩] : List ProductRow).filter
              (fun p => p.category == "Snacks")).map
            (fun p => p.productName))).1)[0]? :=
  (submission_amount_matches_recompute
    [⟨"Chips", "Snacks", some 20⟩, ⟨"Cola", "Snacks", some 15⟩]
    (by decide) "R1" "Snacks" "Alice" "T1" "a@x.com" "0" "0"
    [some 3, some 0] (fun n => "u" ++ toString n)
    (fun n => "t" ++ toString n) 0 (by decide) (by decide)).1

/-- C4 counterexample: a successful submission of two products, with a
clock that advances between the two `now()` calls of the build loop,
yields two records with different Timestamps — the claim that all records
of one build share one identical Timestamp value fails on the code, which
reads the clock once per record (src/app.py line 221). -/
theorem shared_timestamp_counterexample :
    (submit_data [⟨"P1", "C", some 1⟩, ⟨"P2", "C", some 1⟩] 1 (some "R")
        (some "C")
        (Children.infoLines "👤 Salesperson: S" "📢 Team: T" "📧 Email: E")
        [some 1, some 1] (some "10,20") (fun n => "uuid-" ++ toString n)
        (fun n => "2025-01-01T00:00:00.00000" ++ toString n)
        (fun _ => true) []).displayed = true
    ∧ ¬ (∀ r1 ∈ (submit_data [⟨"P1", "C", some 1⟩, ⟨"P2", "C", some 1⟩]
          1 (some "R") (some "C")
          (Children.infoLines "👤 Salesperson: S" "📢 Team: T"
            "📧 Email: E")
          [some 1, some 1] (some "10,20")
          (fun n => "uuid-" ++ toString n)
          (fun n => "2025-01-01T00:00:00.00000" ++ toString n)
          (fun _ => true) []).sink,
        ∀ r2 ∈ (submit_data [⟨"P1", "C", some 1⟩, ⟨"P2", "C", some 1⟩]
          1 (some "R") (some "C")
          (Children.infoLines "👤 Salesperson: S" "📢 Team: T"
            "📧 Email: E")
          [some 1, some 1] (some "10,20")
          (fun n => "uuid-" ++ toString n)
          (fun n => "2025-01-01T00:00:00.00000" ++ toString n)
          (fun _ => true) []).sink, r1.timestamp = r2.timestamp) := by
  decide

/-- C4 amended: all records of one build share the single
Latitude/Longitude pair captured once per submission attempt, but the
Timestamp is captured per record — each record carries the clock reading
of its own loop iteration, so records of one build may differ in
Timestamp. -/
theorem per_record_timestamp_shared_geolocation
    (pd : List ProductRow) (n_clicks : ℕ) (r c : String) (si : Children)
    (iv : List (Option ℚ)) (geo : Option String) (gen clk : ℕ → String)
    (sinkOk : ℕ → Bool) (sink : List SubmissionRecord)
    (sp tm em la lo : String)
    (hn : n_clicks ≠ 0) (hr : r ≠ "") (hc : c ≠ "")
    (hsp : extractSalespersonFields si = some (sp, tm, em))
    (hgeo : parseGeolocation geo = some (la, lo))
    (hok : ∀ j, sinkOk j = true) :
    ((submit_data pd n_clicks (some r) (some c) si iv geo gen clk sinkOk
        sink).sink
      = sink ++ buildSubmissionData pd r c sp tm em iv la lo gen clk)
    ∧ (∀ rec ∈ buildSubmissionData pd r c sp tm em iv la lo gen clk,
        rec.latitude = la ∧ rec.longitude = lo)
    ∧ (∀ i : ℕ, ((buildSubmissionData pd r c sp tm em iv la lo gen
          clk)[i]?).map (fun rec => rec.timestamp)
        = ((pd.filter (fun p => p.category == c))[i]?).map
            (fun _ => clk i)) := by
  refine ⟨?_, ?_, ?_⟩
  · rw [submit_data_eq_good pd n_clicks r c si iv geo gen clk sinkOk sink
      sp tm em la lo hn hr hc hsp hgeo,
      appendRows_all_ok sinkOk hok _ sink 0]
    rfl
  · intro rec hmem
    rcases mem_buildSubmissionData pd r c sp tm em iv la lo gen clk rec
      hmem with ⟨i, p, hp, hrec⟩
    subst hrec
    exact ⟨rfl, rfl⟩
  · intro i
    rw [buildSubmissionData_getElem?]
    cases (pd.filter (fun p => p.category == c))[i]? with
    | none => rfl
    | some p => rfl

/-- Witness for the amended C4. -/
theorem per_record_timestamp_shared_geolocation_witness :
    (submit_data [⟨"P1", "C", some 1⟩, ⟨"P2", "C", some 1⟩] 1 (some "R")
        (some "C")
        (Children.infoLines "👤 Salesperson: S" "📢 Team: T" "📧 Email: E")
        [some 1, some 1] (some "10,20") (fun n => "uuid-" ++ toString n)
        (fun n => "ts-" ++ toString n) (fun _ => true) []).sink
      = [] ++ buildSubmissionData
          [⟨"P1", "C", some 1⟩, ⟨"P2", "C", some 1⟩] "R" "C" "S" "T" "E"
          [some 1, some 1] "10" "20" (fun n => "uuid-" ++ toString n)
          (fun n => "ts-" ++ toString n) :=
  (per_record_timestamp_shared_geolocation
    [⟨"P1", "C", some 1⟩, ⟨"P2", "C", some 1⟩] 1 "R" "C"
    (Children.infoLines "👤 Salesperson: S" "📢 Team: T" "📧 Email: E")
    [some 1, some 1] (some "10,20") (fun n => "uuid-" ++ toString n)
    (fun n => "ts-" ++ toString n) (fun _ => true) [] "S" "T" "E"
    "10" "20" (by decide) (by decide) (by decide) (by decide)
    (by decide) (fun j => rfl)).1

/-- C5 counterexample: a submit whose retailer resolves to a retailer row
with empty salesperson, team and email strings is not rejected — the
submission succeeds (confirm dialog shown) and appends a record carrying
the empty fields, so an empty salesperson field does not yield a
validation error with zero records. -/
theorem empty_salesperson_not_validated_counterexample :
    (submit_data [⟨"P", "C", some 5⟩] 1 (some "R") (some "C")
        (update_salesperson_info [⟨"R", "", "", ""⟩] (some "R"))
        [some 2] none (fun n => "u" ++ toString n)
        (fun n => "t" ++ toString n) (fun _ => true) []).displayed = true
    ∧ (submit_data [⟨"P", "C", some 5⟩] 1 (some "R") (some "C")
        (update_salesperson_info [⟨"R", "", "", ""⟩] (some "R"))
        [some 2] none (fun n => "u" ++ toString n)
        (fun n => "t" ++ toString n) (fun _ => true) []).sink ≠ []
    ∧ (∀ rec ∈ (submit_data [⟨"P", "C", some 5⟩] 1 (some "R") (some "C")
        (update_salesperson_info [⟨"R", "", "", ""⟩] (some "R"))
        [some 2] none (fun n => "u" ++ toString n)
        (fun n => "t" ++ toString n) (fun _ => true) []).sink,
        rec.salesperson = "" ∧ rec.team = "" ∧ rec.email = "") := by
  decide

/-- C5 amended: a missing click, unselected/empty retailer or
unselected/empty category yields the validation warning, no records and an
untouched sink; a retailer that does not resolve to a known retailer row
makes the salesperson parse fail, which surfaces the error status with an
untouched sink; but empty salesperson/team/email strings are not
validated — when the parse succeeds the submission proceeds even with all
three fields empty. -/
theorem submit_precondition_validation
    (pd : List ProductRow) (retailers_data : List RetailerRow)
    (n_clicks : ℕ) (sr sc : Option String) (si : Children)
    (iv : List (Option ℚ)) (geo : Option String) (gen clk : ℕ → String)
    (sinkOk : ℕ → Bool) (sink : List SubmissionRecord) (r : String) :
    ((n_clicks = 0 ∨ pyFalsy sr = true ∨ pyFalsy sc = true) →
      submit_data pd n_clicks sr sc si iv geo gen clk sinkOk sink
        = { status := "⚠️ Please complete all fields before submitting."
            displayed := false
            sink := sink })
    ∧ (retailers_data.find? (fun ri => ri.retailerName == r) = none →
        extractSalespersonFields
          (update_salesperson_info retailers_data (some r)) = none)
    ∧ (extractSalespersonFields si = none →
        (submit_data pd n_clicks sr sc si iv geo gen clk sinkOk
            sink).displayed = false
          ∧ (submit_data pd n_clicks sr sc si iv geo gen clk sinkOk
              sink).sink = sink)
    ∧ (∀ (r2 c2 tm em la lo : String), n_clicks ≠ 0 → r2 ≠ "" → c2 ≠ "" →
        extractSalespersonFields si = some ("", tm, em) →
        parseGeolocation geo = some (la, lo) → (∀ j, sinkOk j = true) →
        (submit_data pd n_clicks (some r2) (some c2) si iv geo gen clk
          sinkOk sink).displayed = true) := by
  refine ⟨?_, extract_unresolved_retailer_none retailers_data r, ?_, ?_⟩
  · intro h
    exact submit_data_eq_warn pd n_clicks sr sc si iv geo gen clk sinkOk
      sink (by rcases h with h | h | h <;> simp [h])
  · intro hnone
    cases hcond : (n_clicks == 0 || pyFalsy sr || pyFalsy sc) with
    | false =>
        rw [submit_data_eq_err_of_extract_none pd n_clicks sr sc si iv
          geo gen clk sinkOk sink hcond hnone]
        exact ⟨rfl, rfl⟩
    | true =>
        rw [submit_data_eq_warn pd n_clicks sr sc si iv geo gen clk
          sinkOk sink hcond]
        exact ⟨rfl, rfl⟩
  · intro r2 c2 tm em la lo hn hr2 hc2 hsp hgeo hok
    rw [submit_data_eq_good pd n_clicks r2 c2 si iv geo gen clk sinkOk
      sink "" tm em la lo hn hr2 hc2 hsp hgeo,
      appendRows_all_ok sinkOk hok _ sink 0]
    rfl

/-- Witness for the amended C5: each clause applied at a concrete input. -/
theorem submit_precondition_validation_witness :
    (submit_data [] 0 none none (Children.msg "Please select a retailer.")
        [] none (fun _ => "") (fun _ => "") (fun _ => true) []
      = { status := "⚠️ Please complete all fields before submitting."
          displayed := false
          sink := [] })
    ∧ extractSalespersonFields
        (update_salesperson_info [] (some "R")) = none
    ∧ (submit_data [] 1 (some "R") (some "C")
          (Children.msg "Retailer not found.") [] none (fun _ => "")
          (fun _ => "") (fun _ => true) []).displayed = false
    ∧ (submit_data [⟨"P", "C", some 5⟩] 1 (some "R") (some "C")
        (Children.infoLines "👤 Salesperson: " "📢 Team: T" "📧 Email: E")
        [some 1] none (fun _ => "") (fun _ => "") (fun _ => true)
        []).displayed = true :=
  ⟨(submit_precondition_validation [] [] 0 none none
      (Children.msg "Please select a retailer.") [] none (fun _ => "")
      (fun _ => "") (fun _ => true) [] "R").1 (Or.inl rfl),
    (submit_precondition_validation [] [] 0 none none
      (Children.msg "Please select a retailer.") [] none (fun _ => "")
      (fun _ => "") (fun _ => true) [] "R").2.1 rfl,
    ((submit_precondition_validation [] [] 1 (some "R") (some "C")
      (Children.msg "Retailer not found.") [] none (fun _ => "")
      (fun _ => "") (fun _ => true) [] "R").2.2.1 rfl).1,
    (submit_precondition_validation [⟨"P", "C", some 5⟩] [] 1 (some "R")
      (some "C")
      (Children.infoLines "👤 Salesperson: " "📢 Team: T" "📧 Email: E")
      [some 1] none (fun _ => "") (fun _ => "") (fun _ => true) []
      "R").2.2.2 "R" "C" "T" "E" "0" "0" (by decide) (by decide)
      (by decide) (by decide) rfl (fun j => rfl)⟩

/-- C7: with a collision-free identifier stream `G` (modelling
`uuid.uuid4()`, which per the spec is collision-free with overwhelming
probability), every record of one build receives a fresh id, ids within a
build are pairwise distinct, and a second build on the same draft — whose
draws continue further along the stream — shares no id with the first, so
ids are never reused. -/
theorem unique_ids_fresh_and_never_reused
    (G : ℕ → String) (hinj : Function.Injective G)
    (pd : List ProductRow) (r c sp tm em la lo : String)
    (iv : List (Option ℚ)) (clk clk2 : ℕ → String) :
    (((buildSubmissionData pd r c sp tm em iv la lo G clk).map
        (fun rec => rec.uniqueId)).Nodup)
    ∧ (((buildSubmissionData pd r c sp tm em iv la lo
          (fun i => G ((pd.filter (fun p => p.category == c)).length + i))
          clk2).map (fun rec => rec.uniqueId)).Nodup)
    ∧ (∀ a, a ∈ (buildSubmissionData pd r c sp tm em iv la lo G
            clk).map (fun rec => rec.uniqueId) →
        a ∉ (buildSubmissionData pd r c sp tm em iv la lo
          (fun i => G ((pd.filter (fun p => p.category == c)).length + i))
          clk2).map (fun rec => rec.uniqueId)) := by
  have h1 := buildSubmissionData_map_uniqueId pd r c sp tm em iv la lo
    G clk
  have h2 := buildSubmissionData_map_uniqueId pd r c sp tm em iv la lo
    (fun i => G ((pd.filter (fun p => p.category == c)).length + i)) clk2
  have hinj2 : Function.Injective
      (fun i => G ((pd.filter (fun p => p.category == c)).length + i)) :=
    fun a b h => by
      have := hinj h
      omega
  refine ⟨?_, ?_, ?_⟩
  · rw [h1]
    exact (List.nodup_range' _ _).map hinj
  · rw [h2]
    exact (List.nodup_range' _ _).map hinj2
  · intro a ha hb
    rw [h1] at ha
    rw [h2] at hb
    rcases List.mem_map.mp ha with ⟨i, hi, rfl⟩
    rcases List.mem_map.mp hb with ⟨j, hj, hGj⟩
    rcases List.mem_range'.mp hi with ⟨i2, hi2, rfl⟩
    have := hinj hGj
    omega

/-- Witness for C7: a concrete injective identifier stream on two
products. -/
theorem unique_ids_fresh_and_never_reused_witness :
    Function.Injective (fun k : ℕ => String.mk (List.replicate k 'a'))
    ∧ ((buildSubmissionData [⟨"P1", "C", some 1⟩, ⟨"P2", "C", some 1⟩]
        "R" "C" "S" "T" "E" [some 1, some 1] "0" "0"
        (fun k => String.mk (List.replicate k 'a'))
        (fun n => "t" ++ toString n)).map
          (fun rec => rec.uniqueId)).Nodup :=
  have hinj : Function.Injective
      (fun k : ℕ => String.mk (List.replicate k 'a')) := fun a b h => by
    simpa using congrArg (fun s => s.data.length) h
  ⟨hinj,
    (unique_ids_fresh_and_never_reused
      (fun k => String.mk (List.replicate k 'a')) hinj
      [⟨"P1", "C", some 1⟩, ⟨"P2", "C", some 1⟩] "R" "C" "S" "T" "E"
      "0" "0" [some 1, some 1] (fun n => "t" ++ toString n)
      (fun n => "t" ++ toString n)).1⟩

/-- C8: when the append of the j-th record to the sink raises (all earlier
appends having succeeded), `submit_data` reports the error status with no
confirm dialog — never full success — performs no retry, and the records
appended before the failure remain in the sink unchanged: the final sink
is exactly the old sink plus the first j records. -/
theorem sink_failure_reported_no_retry
    (pd : List ProductRow) (n_clicks : ℕ) (r c : String) (si : Children)
    (iv : List (Option ℚ)) (geo : Option String) (gen clk : ℕ → String)
    (sinkOk : ℕ → Bool) (sink : List SubmissionRecord)
    (sp tm em la lo : String) (j : ℕ)
    (hn : n_clicks ≠ 0) (hr : r ≠ "") (hc : c ≠ "")
    (hsp : extractSalespersonFields si = some (sp, tm, em))
    (hgeo : parseGeolocation geo = some (la, lo))
    (hj : j < (buildSubmissionData pd r c sp tm em iv la lo gen
      clk).length)
    (hpre : ∀ i, i < j → sinkOk i = true)
    (hfail : sinkOk j = false) :
    ((submit_data pd n_clicks (some r) (some c) si iv geo gen clk sinkOk
        sink).status
      = "❌ An error occurred while submitting. Please try again.")
    ∧ ((submit_data pd n_clicks (some r) (some c) si iv geo gen clk
        sinkOk sink).displayed = false)
    ∧ ((submit_data pd n_clicks (some r) (some c) si iv geo gen clk
        sinkOk sink).sink
      = sink ++ (buildSubmissionData pd r c sp tm em iv la lo gen
          clk).take j) := by
  rw [submit_data_eq_good pd n_clicks r c si iv geo gen clk sinkOk sink
    sp tm em la lo hn hr hc hsp hgeo,
    appendRows_first_fail sinkOk
      (buildSubmissionData pd r c sp tm em iv la lo gen clk) sink 0 j hj
      (fun i hi => by rw [Nat.zero_add]; exact hpre i hi)
      (by rw [Nat.zero_add]; exact hfail)]
  exact ⟨rfl, rfl, rfl⟩

/-- Witness for C8: the second of two appends fails. -/
theorem sink_failure_reported_no_retry_witness :
    (submit_data [⟨"P1", "C", some 1⟩, ⟨"P2", "C", some 1⟩] 1 (some "R")
        (some "C")
        (Children.infoLines "👤 Salesperson: S" "📢 Team: T" "📧 Email: E")
        [some 1, some 1] none (fun n => "u" ++ toString n)
        (fun n => "t" ++ toString n) (fun i => i == 0) []).sink
      = [] ++ (buildSubmissionData
          [⟨"P1", "C", some 1⟩, ⟨"P2", "C", some 1⟩] "R" "C" "S" "T" "E"
          [some 1, some 1] "0" "0" (fun n => "u" ++ toString n)
          (fun n => "t" ++ toString n)).take 1 :=
  (sink_failure_reported_no_retry
    [⟨"P1", "C", some 1⟩, ⟨"P2", "C", some 1⟩] 1 "R" "C"
    (Children.infoLines "👤 Salesperson: S" "📢 Team: T" "📧 Email: E")
    [some 1, some 1] none (fun n => "u" ++ toString n)
    (fun n => "t" ++ toString n) (fun i => i == 0) [] "S" "T" "E" "0" "0"
    1 (by decide) (by decide) (by decide) (by decide) rfl (by decide)
    (by decide) (by decide)).2.2

/-- C9: when the geolocation value is absent every record built and
appended by the submission has Latitude "0" and Longitude "0". -/
theorem absent_geolocation_zero_coordinates
    (pd : List ProductRow) (n_clicks : ℕ) (r c : String) (si : Children)
    (iv : List (Option ℚ)) (gen clk : ℕ → String) (sinkOk : ℕ → Bool)
    (sink : List SubmissionRecord) (sp tm em : String)
    (hn : n_clicks ≠ 0) (hr : r ≠ "") (hc : c ≠ "")
    (hsp : extractSalespersonFields si = some (sp, tm, em))
    (hok : ∀ j, sinkOk j = true) :
    ((submit_data pd n_clicks (some r) (some c) si iv none gen clk sinkOk
        sink).sink
      = sink ++ buildSubmissionData pd r c sp tm em iv "0" "0" gen clk)
    ∧ (∀ rec ∈ buildSubmissionData pd r c sp tm em iv "0" "0" gen clk,
        rec.latitude = "0" ∧ rec.longitude = "0") := by
  refine ⟨?_, ?_⟩
  · rw [submit_data_eq_good pd n_clicks r c si iv none gen clk sinkOk
      sink sp tm em "0" "0" hn hr hc hsp rfl,
      appendRows_all_ok sinkOk hok _ sink 0]
    rfl
  · intro rec hmem
    rcases mem_buildSubmissionData pd r c sp tm em iv "0" "0" gen clk rec
      hmem with ⟨i, p, hp, hrec⟩
    subst hrec
    exact ⟨rfl, rfl⟩

/-- Witness for C9. -/
theorem absent_geolocation_zero_coordinates_witness :
    (submit_data [⟨"P1", "C", some 1⟩, ⟨"P2", "C", some 1⟩] 1 (some "R")
        (some "C")
        (Children.infoLines "👤 Salesperson: S" "📢 Team: T" "📧 Email: E")
        [some 1, some 1] none (fun n => "u" ++ toString n)
        (fun n => "t" ++ toString n) (fun _ => true) []).sink
      = [] ++ buildSubmissionData
          [⟨"P1", "C", some 1⟩, ⟨"P2", "C", some 1⟩] "R" "C" "S" "T" "E"
          [some 1, some 1] "0" "0" (fun n => "u" ++ toString n)
          (fun n => "t" ++ toString n) :=
  (absent_geolocation_zero_coordinates
    [⟨"P1", "C", some 1⟩, ⟨"P2", "C", some 1⟩] 1 "R" "C"
    (Children.infoLines "👤 Salesperson: S" "📢 Team: T" "📧 Email: E")
    [some 1, some 1] (fun n => "u" ++ toString n)
    (fun n => "t" ++ toString n) (fun _ => true) [] "S" "T" "E"
    (by decide) (by decide) (by decide) (by decide) (fun j => rfl)).1

/-- C10: the build pairs quantities to the selected category's products by
positional index and still produces one record per product when the
quantity list is shorter than the product list or contains `None` entries;
a product whose positional entry is missing or `None` is recorded with
Quantity 0. -/
theorem short_or_absent_quantities_default_zero
    (pd : List ProductRow) (r c sp tm em la lo : String)
    (iv : List (Option ℚ)) (gen clk : ℕ → String) :
    ((buildSubmissionData pd r c sp tm em iv la lo gen clk).length
      = (pd.filter (fun p => p.category == c)).length)
    ∧ (∀ i : ℕ, ((buildSubmissionData pd r c sp tm em iv la lo gen
          clk)[i]?).map (fun rec => (rec.product, rec.quantity))
        = ((pd.filter (fun p => p.category == c))[i]?).map
            (fun p => (p.productName, ((iv[i]?).join).getD 0)))
    ∧ (∀ i : ℕ, (iv.length ≤ i ∨ iv[i]? = some none) →
        ((buildSubmissionData pd r c sp tm em iv la lo gen clk)[i]?).map
          (fun rec => rec.quantity)
        = ((pd.filter (fun p => p.category == c))[i]?).map
            (fun _ => 0)) := by
  refine ⟨buildSubmissionData_length pd r c sp tm em iv la lo gen clk,
    ?_, ?_⟩
  · intro i
    rw [buildSubmissionData_getElem?]
    cases (pd.filter (fun p => p.category == c))[i]? with
    | none => rfl
    | some p => rfl
  · intro i hmiss
    rw [buildSubmissionData_getElem?]
    have hj : (iv[i]?.bind fun a => a) = none := by
      rcases hmiss with h | h
      · rw [List.getElem?_eq_none h]
        rfl
      · rw [h]
        rfl
    cases (pd.filter (fun p => p.category == c))[i]? with
    | none => rfl
    | some p => simp [submissionRecordAt, hj]

/-- Witness for C10: two products, a single-entry quantity list; the
second record gets Quantity 0. -/
theorem short_or_absent_quantities_default_zero_witness :
    ((buildSubmissionData [⟨"P1", "C", some 1⟩, ⟨"P2", "C", some 1⟩]
        "R" "C" "S" "T" "E" [some 5] "0" "0"
        (fun n => "u" ++ toString n) (fun n => "t" ++ toString n))[1]?).map
        (fun rec => rec.quantity)
      = ((([⟨"P1", "C", some 1⟩,
          ⟨"P2", "C", some 1⟩] : List ProductRow).filter
            (fun p => p.category == "C"))[1]?).map (fun _ => 0) :=
  (short_or_absent_quantities_default_zero
    [⟨"P1", "C", some 1⟩, ⟨"P2", "C", some 1⟩] "R" "C" "S" "T" "E" "0"
    "0" [some 5] (fun n => "u" ++ toString n)
    (fun n => "t" ++ toString n)).2.2 1 (Or.inl (by decide))

end Planning
